import Mathlib

/-!
Verification development for the SentinelSlice backend.

The Python sources embedded here:
* backend/agent_service.py  — AgentService.analyze_and_remediate, the
  three-stage pipeline (retrieval, analysis, action);
* backend/elastic_service.py — ElasticService.hybrid_search (request body
  construction) and ElasticService.ingest_slice;
* backend/models.py — the pydantic request model AnalyzeRequest;
* backend/main.py — the analyze endpoint wrapper.

Conventions of the embedding: Python dicts returned to callers are
modelled by the JSON-like type JVal; machine clock readings and scores
are exact rationals, with rounding to two decimals modelled exactly on
rationals (the model uses round-half-up where CPython rounds half to
even; no stated property depends on the rounding mode at half-way
points); numeric-to-text rendering inside human-readable detail strings
is modelled with the standard rational printer, which differs from the
CPython float printer only in the spelling of the numerals.  The
reciprocal-rank-fusion ranking itself is executed by the document store
(the Elasticsearch rrf retriever); it is modelled from the specification
below, with every tunable taken from the request body that
hybrid_search builds.
-/

namespace SentinelSlice

/-- A JSON-like value: the shape of the Python dicts the backend returns. -/
inductive JVal where
  | s : String → JVal
  | q : ℚ → JVal
  | n : Nat → JVal
  | b : Bool → JVal
  | null : JVal
  | arr : List JVal → JVal
  | obj : List (String × JVal) → JVal

/-- Key lookup in an object value; none on non-objects. -/
def objLookup (v : JVal) (key : String) : Option JVal :=
  match v with
  | .obj kvs => (kvs.find? (fun p => p.1 == key)).map (fun p => p.2)
  | _ => none

/-- The keys of an object value, in order; empty for non-objects. -/
def objKeys (v : JVal) : List String :=
  match v with
  | .obj kvs => kvs.map (fun p => p.1)
  | _ => []

/-- One raw hit as the store returns it to the pipeline:
the identifier, the fused score, and the source document fields that
agent_service.py reads out of it.  Metadata values are modelled as
strings (the pipeline only consumes the string-valued keys incident_id
and severity). -/
structure Hit where
  id : String
  score : ℚ
  state_summary : String
  resolution : String
  domain : String
  metadata : List (String × String)

/-- CPython round(x, 2) modelled exactly on rationals. -/
def round2 (x : ℚ) : ℚ := ((round (100 * x) : ℤ) : ℚ) / 100

/-- Rendering of a number inside a detail string (numeral spelling
abstracted, see the file comment). -/
def fmtQ (x : ℚ) : String := toString x

/-- Rendering of the Python list of rounded scores inside the retrieval
detail string. -/
def scoresDetail (scores : List ℚ) : String :=
  "[" ++ String.intercalate ", " (scores.map fmtQ) ++ "]"

/-- The retrieval-stage timeline record built at agent_service.py:44-50. -/
def retrievalRecord (count : Nat) (scores : List ℚ) (dur : ℚ) : JVal :=
  .obj [("agent", .s "Retrieval Agent"),
        ("duration_s", .q dur),
        ("detail", .s ("Found " ++ toString count ++ " matches via RRF (scores: "
          ++ scoresDetail scores ++ ")"))]

/-- The analysis-stage timeline record built at agent_service.py:107-113. -/
def analysisRecord (dur : ℚ) : JVal :=
  .obj [("agent", .s "Analysis Agent"),
        ("duration_s", .q dur),
        ("detail", .s "Root cause pattern synthesized from historical matches.")]

/-- The action-stage timeline record built at agent_service.py:144-150.
Python splitlines is modelled as splitting on the newline character. -/
def actionRecord (runbook : String) (dur : ℚ) : JVal :=
  .obj [("agent", .s "Action Agent"),
        ("duration_s", .q dur),
        ("detail", .s ("Generated " ++ toString (runbook.splitOn "\n").length
          ++ " line runbook."))]

/-- The incident identifier as printed into the context block
(agent_service.py:69): metadata, with the literal UNKNOWN as fallback. -/
def contextIncidentId (h : Hit) : String :=
  (List.lookup "incident_id" h.metadata).getD "UNKNOWN"

/-- The incident identifier as placed into the matches list
(agent_service.py:78): metadata, with the raw document id as fallback. -/
def matchIncidentId (h : Hit) : String :=
  (List.lookup "incident_id" h.metadata).getD h.id

/-- The severity as placed into the matches list (agent_service.py:82). -/
def severityOf (h : Hit) : String :=
  (List.lookup "severity" h.metadata).getD "unknown"

/-- One section of the context block (agent_service.py:68-73);
i is the 0-based enumeration index. -/
def contextPart (i : Nat) (h : Hit) : String :=
  "[Match " ++ toString (i + 1) ++ "] Incident " ++ contextIncidentId h
    ++ " (similarity=" ++ fmtQ (round2 h.score) ++ ")\n"
    ++ "State: " ++ h.state_summary ++ "\n"
    ++ "Resolution: " ++ h.resolution

/-- The full context block (agent_service.py:61-86). -/
def contextOf (hits : List Hit) : String :=
  String.intercalate "\n\n" (hits.enum.map (fun p => contextPart p.1 p.2))

/-- One entry of the matches list (agent_service.py:74-84). -/
def matchEntry (i : Nat) (h : Hit) : JVal :=
  .obj [("rank", .n (i + 1)),
        ("score", .q (round2 h.score)),
        ("incident_id", .s (matchIncidentId h)),
        ("state_summary", .s h.state_summary),
        ("resolution", .s h.resolution),
        ("domain", .s h.domain),
        ("severity", .s (severityOf h))]

/-- The matches list (agent_service.py:62-84). -/
def matchesOf (hits : List Hit) : List JVal :=
  hits.enum.map (fun p => matchEntry p.1 p.2)

/-- The analysis prompt (agent_service.py:90-98). -/
def analysisPrompt (symptoms context : String) : String :=
  "You are an expert SRE analyst. Given the current symptoms and historical matches, identify the root cause pattern.\n\nCurrent symptoms:\n"
    ++ symptoms
    ++ "\n\nHistorical similar incidents:\n"
    ++ context
    ++ "\n\nIn 2-3 sentences, identify the root cause pattern you see across these incidents and how it relates to the current situation. Be specific and technical."

/-- The action prompt (agent_service.py:117-135). -/
def actionPrompt (symptoms pat context : String) : String :=
  "You are a senior SRE writing an emergency runbook. Use ONLY the historical resolutions provided to suggest remediation steps for the current incident.\n\nCurrent symptoms:\n"
    ++ symptoms
    ++ "\n\nRoot cause pattern:\n"
    ++ pat
    ++ "\n\nHistorical resolutions:\n"
    ++ context
    ++ "\n\nGenerate a numbered 5-7 step remediation runbook. Each step should be:\n- Specific and actionable (include actual commands or config changes where relevant)\n- Ordered by priority (most critical first)\n- Based strictly on the historical resolutions above\n\nFormat each step as:\nStep N: [Action Title]\n[Detailed description with specific commands/values]"

/-- The fixed escalation runbook of the no-match path (agent_service.py:54). -/
def noMatchRunbook : String :=
  "No historical matches found. This may be a novel incident — escalate to on-call engineer."

/-- The environment one pipeline run executes against: the store search
(hybrid_search, already fused), the completion adapter (indexed by the
order of the call within the run), and the raw wall-clock durations the
monotonic clock yields for the three stages. -/
structure PipelineEnv where
  search : String → String → Nat → List Hit
  complete : Nat → String → Nat → Except String String
  tRetrieval : ℚ
  tAnalysis : ℚ
  tAction : ℚ

/-- What one run produced: the completion calls that were issued
(prompt and max_tokens, in order) and either the response dict or the
propagated exception. -/
structure RunOutcome where
  completionCalls : List (String × Nat)
  result : Except String JVal

/-- AgentService.analyze_and_remediate (agent_service.py:26-161),
with the two chat.completions.create calls routed through the
environment adapter and exceptions modelled as Except errors. -/
def analyze_and_remediate (env : PipelineEnv) (symptoms domain : String)
    (top_k : Nat) : RunOutcome :=
  let hits := env.search symptoms domain top_k
  let retrieval_time := round2 env.tRetrieval
  let scores := hits.map (fun h => round2 h.score)
  let timeline0 := [retrievalRecord hits.length scores retrieval_time]
  if hits.isEmpty then
    { completionCalls := [],
      result := .ok (.obj
        [("runbook", .s noMatchRunbook),
         ("matches", .arr []),
         ("timeline", .arr timeline0),
         ("pattern", .s "No pattern detected.")]) }
  else
    let context := contextOf hits
    let p1 := analysisPrompt symptoms context
    match env.complete 0 p1 300 with
    | .error e => { completionCalls := [(p1, 300)], result := .error e }
    | .ok text1 =>
      let pat := text1.trim
      let analysis_time := round2 env.tAnalysis
      let timeline1 := timeline0 ++ [analysisRecord analysis_time]
      let p2 := actionPrompt symptoms pat context
      match env.complete 1 p2 800 with
      | .error e =>
          { completionCalls := [(p1, 300), (p2, 800)], result := .error e }
      | .ok text2 =>
        let runbook := text2.trim
        let action_time := round2 env.tAction
        let timeline2 := timeline1 ++ [actionRecord runbook action_time]
        let total := round2 (retrieval_time + analysis_time + action_time)
        { completionCalls := [(p1, 300), (p2, 800)],
          result := .ok (.obj
            [("runbook", .s runbook),
             ("pattern", .s pat),
             ("matches", .arr (matchesOf hits)),
             ("timeline", .arr timeline2),
             ("total_time_s", .q total),
             ("domain", .s domain)]) }

/-- The keys of the response object of a run; empty when the run failed. -/
def resultKeys (o : RunOutcome) : List String :=
  match o.result with
  | .ok v => objKeys v
  | .error _ => []

/-- The analyze endpoint wrapper (main.py:151-163): any exception
becomes an HTTP 500 carrying only the stringified exception; a success
is wrapped into the ApiResponse envelope. -/
def apiAnalyze (o : RunOutcome) : Except (Nat × String) JVal :=
  match o.result with
  | .error e => .error (500, e)
  | .ok v => .ok (.obj [("success", .b true), ("message", .null), ("data", v)])

/-- The parsed AnalyzeRequest (models.py:24-27). -/
structure AnalyzeRequest where
  symptoms : String
  domain : String
  top_k : Int
deriving DecidableEq

/-- Validation performed by pydantic on AnalyzeRequest (models.py:24-27):
symptoms and domain are required str fields with no content constraint
(any string is accepted, the empty string included); top_k is an int
with ge 1, le 10 and default 3.  A missing required field or an
out-of-bounds top_k is a validation error. -/
def parseAnalyzeRequest (symptoms domain : Option String) (top_k : Option Int) :
    Except String AnalyzeRequest :=
  match symptoms with
  | none => .error "field required: symptoms"
  | some s =>
    match domain with
    | none => .error "field required: domain"
    | some d =>
      let k := top_k.getD 3
      if 1 ≤ k ∧ k ≤ 10 then .ok ⟨s, d, k⟩
      else .error "top_k out of range"

/-- A stored slice document as ingest_slice writes it
(elastic_service.py:244-250). -/
structure Slice where
  id : String
  state_summary : String
  domain : String
  resolution : String
  metadata : List (String × String)
  ingested_at : String
deriving DecidableEq

/-- ElasticService.ingest_slice (elastic_service.py:236-253).  The uuid4
generator is modelled as a supply: gen applied to the index n of this
call; the wall clock as the now string.  Returns the stored document and
the returned doc_id. -/
def ingest_slice (gen : Nat → String) (n : Nat) (now : String)
    (state_summary domain resolution : String)
    (metadata : Option (List (String × String))) : Slice × String :=
  let doc_id := gen n
  ({ id := doc_id,
     state_summary := state_summary,
     domain := domain,
     resolution := resolution,
     metadata := metadata.getD [],
     ingested_at := now }, doc_id)

/-- The shape of the search request body that hybrid_search builds
(elastic_service.py:273-307): the term filters attached to the lexical
query and to the semantic retriever, and the rrf tunables. -/
structure SearchBody where
  lexicalFilters : List String
  semanticFilters : List String
  rankWindowSize : Nat
  rankConstant : Nat
  size : Nat
deriving DecidableEq

/-- ElasticService.hybrid_search request-body construction
(elastic_service.py:267-307).  A Python-falsy domain (None or the empty
string) yields no filter; otherwise one term filter on the domain
keyword is attached identically to both retrievers. -/
def hybrid_search_body (domain : Option String) (top_k : Nat) : SearchBody :=
  let filters : List String :=
    match domain with
    | none => []
    | some d => if d = "" then [] else [d]
  { lexicalFilters := filters,
    semanticFilters := filters,
    rankWindowSize := top_k * 3,
    rankConstant := 60,
    size := top_k }

/-- Modelled from the spec: the store-side rrf retriever is not in this
repository (hybrid_search only builds its request body), so ranking is
modelled from spec section 4.1.  The 1-based rank of an identifier in a
ranked list, none when absent. -/
def rankOf (l : List String) (id : String) : Option ℕ :=
  if id ∈ l then some (l.indexOf id + 1) else none

/-- Modelled from the spec: the reciprocal-rank contribution of one
list, 1 over (rank_constant + rank) with the rank_constant 60 that
hybrid_search puts into the request body, and 0 for a list the
identifier does not appear in. -/
def recipRank : Option ℕ → ℚ
  | some r => 1 / (60 + (r : ℚ))
  | none => 0

/-- Modelled from the spec: the fused relevance score of an identifier,
the sum of its reciprocal-rank contributions from the lexical and the
semantic list. -/
def rrfScore (lex sem : List String) (id : String) : ℚ :=
  recipRank (rankOf lex id) + recipRank (rankOf sem id)

/-- A rank with absence mapped to the top element, so that identifiers
missing from a list sort after all identifiers present in it. -/
def rankTop (o : Option ℕ) : WithTop ℕ :=
  match o with
  | some r => (r : WithTop ℕ)
  | none => ⊤

/-- The reciprocal-rank contribution as an exact unreduced fraction
(numerator, positive denominator); kept in integers so that comparisons
compute inside the kernel. -/
def fracOf : Option ℕ → Int × Int
  | some r => (1, 60 + (r : Int))
  | none => (0, 1)

/-- Exact fraction addition without normalisation. -/
def fracAdd (a b : Int × Int) : Int × Int :=
  (a.1 * b.2 + b.1 * a.2, a.2 * b.2)

/-- The sort key of one identifier during fusion: its fused score as an
exact fraction plus the tie-break data (lexical rank, semantic rank,
identifier). -/
structure FuseKey where
  num : Int
  den : Int
  lexR : Option ℕ
  semR : Option ℕ
  id : String

/-- The sort key of an identifier with respect to the two ranked lists. -/
def fuseKeyOf (lex sem : List String) (i : String) : FuseKey :=
  let f := fracAdd (fracOf (rankOf lex i)) (fracOf (rankOf sem i))
  { num := f.1, den := f.2,
    lexR := rankOf lex i, semR := rankOf sem i, id := i }

/-- Strict fraction comparison by cross multiplication (for positive
denominators). -/
def fracLtb (n1 d1 n2 d2 : Int) : Bool := decide (n1 * d2 < n2 * d1)

/-- Fraction equality by cross multiplication (for positive
denominators). -/
def fracEqb (n1 d1 n2 d2 : Int) : Bool := decide (n1 * d2 = n2 * d1)

/-- Strict comparison of optional ranks, with absence after presence. -/
def rankLtb : Option ℕ → Option ℕ → Bool
  | some a, some b => decide (a < b)
  | some _, none => true
  | none, _ => false

/-- Lexicographic strict comparison of character lists (identifier
string order), written structurally so that it computes in the kernel. -/
def charsLtb : List Char → List Char → Bool
  | [], [] => false
  | [], _ :: _ => true
  | _ :: _, [] => false
  | a :: as, b :: bs =>
    if a < b then true else if b < a then false else charsLtb as bs

/-- Modelled from the spec: x strictly precedes y in the fused ranking
when its score is strictly larger, ties broken by original lexical
rank, then semantic rank, then identifier string order. -/
def keyBeforeb (x y : FuseKey) : Bool :=
  fracLtb y.num y.den x.num x.den ||
  (fracEqb x.num x.den y.num y.den &&
    (rankLtb x.lexR y.lexR ||
      (x.lexR == y.lexR &&
        (rankLtb x.semR y.semR ||
          (x.semR == y.semR && charsLtb x.id.toList y.id.toList)))))

/-- The non-strict companion of keyBeforeb. -/
def keyLEb (x y : FuseKey) : Bool := !(keyBeforeb y x)

/-- The sort relation on identifiers the fusion uses. -/
def fuseRel (lex sem : List String) (i j : String) : Prop :=
  keyLEb (fuseKeyOf lex sem i) (fuseKeyOf lex sem j) = true

instance fuseRelDecidable (lex sem : List String) :
    DecidableRel (fuseRel lex sem) :=
  fun _ _ => inferInstanceAs (Decidable (_ = true))

/-- Modelled from the spec: the fused ranking over two ranked identifier
lists — sort the union of identifiers by descending fused score with the
deterministic tie-break, then truncate to top_k (the size that
hybrid_search puts into the request body). -/
def rrfFuse (lex sem : List String) (top_k : ℕ) : List String :=
  (List.insertionSort (fuseRel lex sem) ((lex ++ sem).dedup)).take top_k

/-- A slice passes the term filters of one retriever exactly when its
domain equals every filtered value. -/
def passesFilters (fs : List String) (s : Slice) : Bool :=
  fs.all (fun d => s.domain == d)

/-- Modelled from the spec: store-side execution of the search request
hybrid_search builds — each retriever ranks only slices passing its term
filters, returns a window of rank_window_size candidates, and the rrf
retriever fuses the two identifier lists and truncates to size.  The
two raw ranked lists (lexical and semantic relevance order) are inputs,
as relevance scoring itself is a black box of the store adapter. -/
def execHybridSearch (lexRaw semRaw : List Slice) (domain : Option String)
    (top_k : ℕ) : List String :=
  let b := hybrid_search_body domain top_k
  let lexList := ((lexRaw.filter (passesFilters b.lexicalFilters)).take
    b.rankWindowSize).map Slice.id
  let semList := ((semRaw.filter (passesFilters b.semanticFilters)).take
    b.rankWindowSize).map Slice.id
  rrfFuse lexList semList b.size

/-- The semantic sort key: negated fused score, then ranks with absence
at the top, then the identifier, compared lexicographically. -/
def keyQ (lex sem : List String) (i : String) :
    ℚ ×ₗ (WithTop ℕ ×ₗ (WithTop ℕ ×ₗ String)) :=
  toLex (-(rrfScore lex sem i),
    toLex (rankTop (rankOf lex i),
      toLex (rankTop (rankOf sem i), i)))

/-- The fused-output ordering in the words of the spec: strictly larger
fused score first, ties broken by original lexical rank, then semantic
rank, then identifier string order. -/
def fusedBefore (lex sem : List String) (i j : String) : Prop :=
  rrfScore lex sem j < rrfScore lex sem i ∨
  (rrfScore lex sem i = rrfScore lex sem j ∧
    (rankTop (rankOf lex i) < rankTop (rankOf lex j) ∨
      (rankTop (rankOf lex i) = rankTop (rankOf lex j) ∧
        (rankTop (rankOf sem i) < rankTop (rankOf sem j) ∨
          (rankTop (rankOf sem i) = rankTop (rankOf sem j) ∧ i < j)))))

/-- The key lists of the timeline entries of a response, in order;
empty when the run failed or the response carries no timeline array. -/
def timelineKeys (o : RunOutcome) : List (List String) :=
  match o.result with
  | .ok v =>
    match objLookup v "timeline" with
    | some (.arr ts) => ts.map objKeys
    | _ => []
  | .error _ => []

/-- The key lists of the match entries of a response, in order; empty
when the run failed or the response carries no matches array. -/
def matchKeys (o : RunOutcome) : List (List String) :=
  match o.result with
  | .ok v =>
    match objLookup v "matches" with
    | some (.arr ms) => ms.map objKeys
    | _ => []
  | .error _ => []

@[simp] lemma fuseKeyOf_lexR (lex sem : List String) (i : String) :
    (fuseKeyOf lex sem i).lexR = rankOf lex i := rfl

@[simp] lemma fuseKeyOf_semR (lex sem : List String) (i : String) :
    (fuseKeyOf lex sem i).semR = rankOf sem i := rfl

@[simp] lemma fuseKeyOf_id (lex sem : List String) (i : String) :
    (fuseKeyOf lex sem i).id = i := rfl

lemma fracOf_den_pos (o : Option ℕ) : 0 < (fracOf o).2 := by
  cases o with
  | none => simp [fracOf]
  | some r =>
    simp only [fracOf]
    positivity

lemma fracOf_div (o : Option ℕ) :
    ((fracOf o).1 : ℚ) / ((fracOf o).2 : ℚ) = recipRank o := by
  cases o with
  | none => simp [fracOf, recipRank]
  | some r =>
    simp only [fracOf, recipRank]
    push_cast
    ring

lemma fuseKeyOf_den_pos (lex sem : List String) (i : String) :
    0 < (fuseKeyOf lex sem i).den := by
  have h1 := fracOf_den_pos (rankOf lex i)
  have h2 := fracOf_den_pos (rankOf sem i)
  simpa [fuseKeyOf, fracAdd] using mul_pos h1 h2

lemma fuseKeyOf_div (lex sem : List String) (i : String) :
    ((fuseKeyOf lex sem i).num : ℚ) / ((fuseKeyOf lex sem i).den : ℚ) =
      rrfScore lex sem i := by
  have h1 := fracOf_den_pos (rankOf lex i)
  have h2 := fracOf_den_pos (rankOf sem i)
  rw [rrfScore, ← fracOf_div (rankOf lex i), ← fracOf_div (rankOf sem i)]
  simp only [fuseKeyOf, fracAdd]
  rw [div_add_div _ _ (by exact_mod_cast h1.ne') (by exact_mod_cast h2.ne')]
  push_cast
  ring_nf

lemma fracLtb_iff {n1 d1 n2 d2 : Int} (h1 : 0 < d1) (h2 : 0 < d2) :
    fracLtb n1 d1 n2 d2 = true ↔ (n1 : ℚ) / d1 < (n2 : ℚ) / d2 := by
  rw [fracLtb, decide_eq_true_iff,
    div_lt_div_iff₀ (by exact_mod_cast h1) (by exact_mod_cast h2)]
  constructor <;> intro h <;> exact_mod_cast h

lemma fracEqb_iff {n1 d1 n2 d2 : Int} (h1 : 0 < d1) (h2 : 0 < d2) :
    fracEqb n1 d1 n2 d2 = true ↔ (n1 : ℚ) / d1 = (n2 : ℚ) / d2 := by
  rw [fracEqb, decide_eq_true_iff,
    div_eq_div_iff (by exact_mod_cast h1.ne') (by exact_mod_cast h2.ne')]
  constructor <;> intro h <;> exact_mod_cast h

lemma rankLtb_iff (a b : Option ℕ) :
    rankLtb a b = true ↔ rankTop a < rankTop b := by
  cases a <;> cases b <;>
    simp [rankLtb, rankTop, WithTop.coe_lt_coe, WithTop.coe_lt_top]

lemma rankEqb_iff (a b : Option ℕ) :
    (a == b) = true ↔ rankTop a = rankTop b := by
  cases a <;> cases b <;> simp [rankTop]

lemma charsLtb_iff (a : List Char) : ∀ b, charsLtb a b = true ↔ a < b := by
  induction a with
  | nil =>
    intro b
    cases b with
    | nil =>
      simp only [charsLtb, Bool.false_eq_true, false_iff]
      intro h
      cases h
    | cons c cs =>
      simp only [charsLtb, true_iff]
      exact List.Lex.nil
  | cons c cs ih =>
    intro b
    cases b with
    | nil =>
      simp only [charsLtb, Bool.false_eq_true, false_iff]
      intro h
      cases h
    | cons d ds =>
      by_cases h1 : c < d
      · simp only [charsLtb, h1, if_pos, true_iff]
        exact List.Lex.rel h1
      · by_cases h2 : d < c
        · simp only [charsLtb, h1, h2, if_neg, if_pos, not_false_iff,
            Bool.false_eq_true, false_iff]
          intro h
          cases h with
          | cons _ => exact absurd h2 (lt_irrefl _)
          | rel hlt => exact h1 hlt
        · have hcd : c = d := le_antisymm (not_lt.mp h2) (not_lt.mp h1)
          subst hcd
          simp only [charsLtb, h1, h2, if_neg, not_false_iff, ih ds]
          constructor
          · intro h
            exact List.Lex.cons h
          · intro h
            cases h with
            | cons h3 => exact h3
            | rel hlt => exact absurd hlt h1

lemma keyBeforeb_iff (lex sem : List String) (i j : String) :
    keyBeforeb (fuseKeyOf lex sem i) (fuseKeyOf lex sem j) = true ↔
      keyQ lex sem i < keyQ lex sem j := by
  have hdi := fuseKeyOf_den_pos lex sem i
  have hdj := fuseKeyOf_den_pos lex sem j
  have hsi := fuseKeyOf_div lex sem i
  have hsj := fuseKeyOf_div lex sem j
  rw [keyQ, keyQ, Prod.Lex.lt_iff]
  simp only [keyBeforeb, Bool.or_eq_true, Bool.and_eq_true,
    fracLtb_iff hdj hdi, fracEqb_iff hdi hdj, rankLtb_iff, rankEqb_iff,
    charsLtb_iff, hsi, hsj, fuseKeyOf_lexR, fuseKeyOf_semR, fuseKeyOf_id,
    Prod.Lex.lt_iff, toLex_inj, Prod.mk.injEq, neg_lt_neg_iff, neg_inj,
    ← String.lt_iff_toList_lt]

lemma fuseRel_iff (lex sem : List String) (i j : String) :
    fuseRel lex sem i j ↔ keyQ lex sem i ≤ keyQ lex sem j := by
  rw [fuseRel, keyLEb, Bool.not_eq_true', ← Bool.not_eq_true,
    keyBeforeb_iff lex sem j i, not_lt]

lemma keyQ_inj {lex sem : List String} {i j : String}
    (h : keyQ lex sem i = keyQ lex sem j) : i = j := by
  simp only [keyQ, toLex_inj, Prod.mk.injEq] at h
  exact h.2.2.2

lemma fusedBefore_iff (lex sem : List String) (i j : String) :
    fusedBefore lex sem i j ↔ keyQ lex sem i < keyQ lex sem j := by
  rw [fusedBefore, keyQ, keyQ, Prod.Lex.lt_iff]
  simp only [Prod.Lex.lt_iff, toLex_inj, Prod.mk.injEq, neg_lt_neg_iff, neg_inj]

instance fuseRelTrans (lex sem : List String) :
    IsTrans String (fuseRel lex sem) :=
  ⟨fun a b c hab hbc => (fuseRel_iff lex sem a c).mpr
    (le_trans ((fuseRel_iff lex sem a b).mp hab)
      ((fuseRel_iff lex sem b c).mp hbc))⟩

instance fuseRelTotal (lex sem : List String) :
    IsTotal String (fuseRel lex sem) :=
  ⟨fun a b => (le_total (keyQ lex sem a) (keyQ lex sem b)).imp
    (fuseRel_iff lex sem a b).mpr (fuseRel_iff lex sem b a).mpr⟩

lemma rrfFuse_pairwise (lex sem : List String) (top_k : ℕ) :
    List.Pairwise (fusedBefore lex sem) (rrfFuse lex sem top_k) := by
  have hperm := List.perm_insertionSort (fuseRel lex sem) ((lex ++ sem).dedup)
  have hsorted : List.Sorted (fuseRel lex sem)
      (List.insertionSort (fuseRel lex sem) ((lex ++ sem).dedup)) :=
    List.sorted_insertionSort _ _
  have hnodup : (List.insertionSort (fuseRel lex sem)
      ((lex ++ sem).dedup)).Nodup :=
    hperm.symm.nodup (List.nodup_dedup _)
  have htake : List.Pairwise (fuseRel lex sem) (rrfFuse lex sem top_k) :=
    List.Pairwise.sublist (List.take_sublist _ _) hsorted
  have htakeN : (rrfFuse lex sem top_k).Nodup :=
    List.Nodup.sublist (List.take_sublist _ _) hnodup
  have hcomb := htake.and htakeN
  exact hcomb.imp (fun {a b} hab => (fusedBefore_iff lex sem a b).mpr
    (lt_of_le_of_ne ((fuseRel_iff lex sem a b).mp hab.1)
      (fun he => hab.2 (keyQ_inj he))))

lemma rrfFuse_length (lex sem : List String) (top_k : ℕ) :
    (rrfFuse lex sem top_k).length = min top_k ((lex ++ sem).dedup.length) := by
  rw [rrfFuse, List.length_take,
    (List.perm_insertionSort (fuseRel lex sem) ((lex ++ sem).dedup)).length_eq]

lemma rrfFuse_mem {lex sem : List String} {top_k : ℕ} {i : String}
    (h : i ∈ rrfFuse lex sem top_k) : i ∈ lex ∨ i ∈ sem := by
  rw [rrfFuse] at h
  have h1 := List.Sublist.mem h (List.take_sublist _ _)
  have h2 := (List.perm_insertionSort (fuseRel lex sem)
    ((lex ++ sem).dedup)).mem_iff.mp h1
  rw [List.mem_dedup, List.mem_append] at h2
  exact h2

/-- C2: for every pair of ranked lists returned by the store, the fused
score of an identifier at 1-based lexical rank r1 and semantic rank r2
is 1/(60+r1) + 1/(60+r2); an identifier present in only one list gets
only that single term; the rank constant 60 is the value hybrid_search
places into the request body. -/
theorem fused_score_is_reciprocal_rank_sum (lex sem : List String) (i : String) :
    (∀ d k, (hybrid_search_body d k).rankConstant = 60) ∧
    (∀ r1 r2, rankOf lex i = some r1 → rankOf sem i = some r2 →
      rrfScore lex sem i = 1 / (60 + (r1 : ℚ)) + 1 / (60 + (r2 : ℚ))) ∧
    (∀ r1, rankOf lex i = some r1 → rankOf sem i = none →
      rrfScore lex sem i = 1 / (60 + (r1 : ℚ))) ∧
    (∀ r2, rankOf lex i = none → rankOf sem i = some r2 →
      rrfScore lex sem i = 1 / (60 + (r2 : ℚ))) := by
  refine ⟨fun d k => rfl, ?_, ?_, ?_⟩
  · intro r1 r2 h1 h2
    simp [rrfScore, recipRank, h1, h2]
  · intro r1 h1 h2
    simp [rrfScore, recipRank, h1, h2]
  · intro r2 h1 h2
    simp [rrfScore, recipRank, h1, h2]

/-- Witness for C2 at concrete lists: in lexical list [A, B] and
semantic list [B, C], B scores 1/62 + 1/61, A only 1/61, C only 1/62. -/
theorem fused_score_is_reciprocal_rank_sum_witness :
    rrfScore ["A", "B"] ["B", "C"] "B" = 1 / (60 + (2 : ℚ)) + 1 / (60 + (1 : ℚ)) ∧
    rrfScore ["A", "B"] ["B", "C"] "A" = 1 / (60 + (1 : ℚ)) ∧
    rrfScore ["A", "B"] ["B", "C"] "C" = 1 / (60 + (2 : ℚ)) :=
  ⟨(fused_score_is_reciprocal_rank_sum ["A", "B"] ["B", "C"] "B").2.1 2 1
      (by decide) (by decide),
   (fused_score_is_reciprocal_rank_sum ["A", "B"] ["B", "C"] "A").2.2.1 1
      (by decide) (by decide),
   (fused_score_is_reciprocal_rank_sum ["A", "B"] ["B", "C"] "C").2.2.2 2
      (by decide) (by decide)⟩

/-- C3: the fused output has length min(top_k, size of the union of the
two lists), is pairwise ordered by strictly descending fused score with
ties broken by lexical rank, then semantic rank, then identifier order,
and the literal scenario lex [A,B,C], sem [B,A,D], top_k 2 gives [A, B]. -/
theorem fusion_output_length_and_order (lex sem : List String) (top_k : ℕ) :
    (rrfFuse lex sem top_k).length = min top_k ((lex ++ sem).dedup.length) ∧
    List.Pairwise (fusedBefore lex sem) (rrfFuse lex sem top_k) ∧
    rrfFuse ["A", "B", "C"] ["B", "A", "D"] 2 = ["A", "B"] :=
  ⟨rrfFuse_length lex sem top_k, rrfFuse_pairwise lex sem top_k, by decide⟩

/-- C8: a present (non-empty) domain filter is attached as the same
exact-match term filter to both the lexical query and the semantic
retriever, and it is a hard filter: an identifier all of whose source
slices have a different domain never appears in the fused output. -/
theorem domain_filter_is_hard (lexRaw semRaw : List Slice) (d : String)
    (top_k : ℕ) (i : String) (hd : d ≠ "")
    (hi : ∀ s : Slice, s ∈ lexRaw ∨ s ∈ semRaw → s.id = i → s.domain ≠ d) :
    (hybrid_search_body (some d) top_k).lexicalFilters = [d] ∧
    (hybrid_search_body (some d) top_k).semanticFilters = [d] ∧
    i ∉ execHybridSearch lexRaw semRaw (some d) top_k := by
  refine ⟨by simp [hybrid_search_body, hd], by simp [hybrid_search_body, hd], ?_⟩
  intro hmem
  simp only [execHybridSearch, hybrid_search_body, hd, if_neg] at hmem
  rcases rrfFuse_mem hmem with h | h
  · rw [List.mem_map] at h
    obtain ⟨s, hs, hsid⟩ := h
    have hs2 := List.Sublist.mem hs (List.take_sublist _ _)
    rw [List.mem_filter] at hs2
    obtain ⟨hsmem, hpass⟩ := hs2
    simp only [if_false, passesFilters, List.all_cons, List.all_nil,
      Bool.and_true, beq_iff_eq] at hpass
    exact hi s (Or.inl hsmem) hsid hpass
  · rw [List.mem_map] at h
    obtain ⟨s, hs, hsid⟩ := h
    have hs2 := List.Sublist.mem hs (List.take_sublist _ _)
    rw [List.mem_filter] at hs2
    obtain ⟨hsmem, hpass⟩ := hs2
    simp only [if_false, passesFilters, List.all_cons, List.all_nil,
      Bool.and_true, beq_iff_eq] at hpass
    exact hi s (Or.inr hsmem) hsid hpass

/-- Witness for C8: a slice of domain x is never returned when the
filter is domain y. -/
theorem domain_filter_is_hard_witness :
    "s1" ∉ execHybridSearch [⟨"s1", "sum", "x", "res", [], "t"⟩] []
      (some "y") 3 :=
  (domain_filter_is_hard [⟨"s1", "sum", "x", "res", [], "t"⟩] [] "y" 3 "s1"
    (by decide)
    (by
      intro s hs hid
      rcases hs with h | h
      · rw [List.mem_singleton] at h
        subst h
        decide
      · simp at h)).2.2

/-- C1: when the fused retrieval list is empty, the run short-circuits:
the response carries exactly the fixed escalation runbook, the fixed
no-pattern sentinel, an empty matches list and a timeline holding only
the single retrieval record, and no completion call is made. -/
theorem no_match_short_circuit (env : PipelineEnv) (symptoms domain : String)
    (top_k : ℕ) (h : env.search symptoms domain top_k = []) :
    (analyze_and_remediate env symptoms domain top_k).completionCalls = [] ∧
    (analyze_and_remediate env symptoms domain top_k).result = .ok (.obj
      [("runbook", .s "No historical matches found. This may be a novel incident — escalate to on-call engineer."),
       ("matches", .arr []),
       ("timeline", .arr [retrievalRecord 0 [] (round2 env.tRetrieval)]),
       ("pattern", .s "No pattern detected.")]) := by
  constructor <;> simp [analyze_and_remediate, h, noMatchRunbook]

/-- Witness for C1 at a concrete environment whose store returns no hit. -/
theorem no_match_short_circuit_witness :
    (analyze_and_remediate ⟨fun _ _ _ => [], fun _ _ _ => .ok "", 0, 0, 0⟩
      "cpu spike" "k8s" 3).completionCalls = [] ∧
    (analyze_and_remediate ⟨fun _ _ _ => [], fun _ _ _ => .ok "", 0, 0, 0⟩
      "cpu spike" "k8s" 3).result = .ok (.obj
      [("runbook", .s "No historical matches found. This may be a novel incident — escalate to on-call engineer."),
       ("matches", .arr []),
       ("timeline", .arr [retrievalRecord 0 [] (round2 (0 : ℚ))]),
       ("pattern", .s "No pattern detected.")]) :=
  no_match_short_circuit ⟨fun _ _ _ => [], fun _ _ _ => .ok "", 0, 0, 0⟩
    "cpu spike" "k8s" 3 rfl

/-- C5 counterexample: for a hit whose metadata lacks an incident
identifier, the context block presents the literal UNKNOWN, not the raw
Slice identifier. -/
theorem context_block_fallback_counterexample :
    contextIncidentId ⟨"slice-42", 1 / 2, "s", "r", "d", []⟩ = "UNKNOWN" ∧
    (⟨"slice-42", 1 / 2, "s", "r", "d", []⟩ : Hit).id = "slice-42" ∧
    contextIncidentId ⟨"slice-42", 1 / 2, "s", "r", "d", []⟩ ≠
      (⟨"slice-42", 1 / 2, "s", "r", "d", []⟩ : Hit).id :=
  ⟨rfl, rfl, by decide⟩

/-- C5 amended: when metadata lacks an incident identifier, the context
block falls back to the literal UNKNOWN while the matches list falls
back to the raw Slice identifier; the context block concatenates, per
hit in fused order, a section built from its 1-based rank, its context
incident identifier, its rounded fused score, state_summary and
resolution. -/
theorem context_block_fallback_and_format :
    (∀ h : Hit, List.lookup "incident_id" h.metadata = none →
      contextIncidentId h = "UNKNOWN" ∧ matchIncidentId h = h.id) ∧
    (∀ hits : List Hit, contextOf hits =
      String.intercalate "\n\n" (hits.enum.map (fun p => contextPart p.1 p.2))) ∧
    (∀ (i : ℕ) (h : Hit), contextPart i h =
      "[Match " ++ toString (i + 1) ++ "] Incident " ++ contextIncidentId h
        ++ " (similarity=" ++ fmtQ (round2 h.score) ++ ")\n"
        ++ "State: " ++ h.state_summary ++ "\n"
        ++ "Resolution: " ++ h.resolution) := by
  refine ⟨fun h hm => ⟨?_, ?_⟩, fun hits => rfl, fun i h => rfl⟩
  · rw [contextIncidentId, hm]
    rfl
  · rw [matchIncidentId, hm]
    rfl

/-- Witness for C5 amended at a concrete hit without metadata. -/
theorem context_block_fallback_and_format_witness :
    contextIncidentId ⟨"slice-7", 1 / 2, "s", "r", "d", []⟩ = "UNKNOWN" ∧
    matchIncidentId ⟨"slice-7", 1 / 2, "s", "r", "d", []⟩ =
      (⟨"slice-7", 1 / 2, "s", "r", "d", []⟩ : Hit).id :=
  context_block_fallback_and_format.1 ⟨"slice-7", 1 / 2, "s", "r", "d", []⟩ rfl

/-- C7 counterexample: requests with empty symptoms or empty domain are
accepted by validation, contradicting the claim that they are rejected. -/
theorem validation_accepts_empty_fields_counterexample :
    parseAnalyzeRequest (some "") (some "x") (some 3) = .ok ⟨"", "x", 3⟩ ∧
    parseAnalyzeRequest (some "y") (some "") (some 3) = .ok ⟨"y", "", 3⟩ :=
  ⟨rfl, rfl⟩

/-- C7 amended: a present request fails validation exactly when top_k is
outside [1, 10]; empty symptoms or domain strings are accepted; an
absent top_k defaults to 3; absent required fields are rejected. -/
theorem validation_rejects_only_top_k_range :
    (∀ s d k, parseAnalyzeRequest (some s) (some d) (some k) = .ok ⟨s, d, k⟩ ↔
      (1 ≤ k ∧ k ≤ 10)) ∧
    (∀ s d k, ¬(1 ≤ k ∧ k ≤ 10) →
      parseAnalyzeRequest (some s) (some d) (some k) =
        .error "top_k out of range") ∧
    (∀ s d, parseAnalyzeRequest (some s) (some d) none = .ok ⟨s, d, 3⟩) ∧
    (∀ d k, parseAnalyzeRequest none d k = .error "field required: symptoms") ∧
    (∀ s k, parseAnalyzeRequest (some s) none k =
      .error "field required: domain") := by
  refine ⟨fun s d k => ?_, fun s d k hk => ?_, fun s d => rfl, fun d k => rfl,
    fun s k => rfl⟩
  · by_cases hk : 1 ≤ k ∧ k ≤ 10 <;> simp [parseAnalyzeRequest, hk]
  · simp [parseAnalyzeRequest, hk]

/-- Witness for C7 amended: top_k 11 is rejected, top_k 3 accepted. -/
theorem validation_rejects_only_top_k_range_witness :
    parseAnalyzeRequest (some "cpu spike") (some "k8s") (some 11) =
      .error "top_k out of range" ∧
    (parseAnalyzeRequest (some "cpu spike") (some "k8s") (some 3) =
      .ok ⟨"cpu spike", "k8s", 3⟩ ↔ (1 ≤ (3 : Int) ∧ (3 : Int) ≤ 10)) :=
  ⟨validation_rejects_only_top_k_range.2.1 "cpu spike" "k8s" 11 (by decide),
   validation_rejects_only_top_k_range.1 "cpu spike" "k8s" 3⟩

/-- C10: the stored identifier of an ingested slice is the freshly
generated uuid of this call: the returned id is the generated one, it
does not depend on any request field, two calls on distinct supply
indices get distinct ids when the generator is injective, and omitted
metadata is stored as the empty map. -/
theorem ingest_ids_are_service_generated (gen : Nat → String)
    (hgen : Function.Injective gen) (m n : Nat) (hmn : m ≠ n)
    (now now2 ss ss2 dm dm2 rs rs2 : String)
    (md md2 : Option (List (String × String))) :
    (ingest_slice gen n now ss dm rs md).2 = gen n ∧
    (ingest_slice gen n now ss dm rs md).1.id =
      (ingest_slice gen n now2 ss2 dm2 rs2 md2).1.id ∧
    (ingest_slice gen m now ss dm rs md).1.id ≠
      (ingest_slice gen n now2 ss2 dm2 rs2 md2).1.id ∧
    (ingest_slice gen n now ss dm rs none).1.metadata = [] := by
  refine ⟨rfl, rfl, ?_, rfl⟩
  intro h
  exact hmn (hgen h)

/-- Witness for C10 with the injective generator mapping k to a string
of k letters. -/
theorem ingest_ids_are_service_generated_witness :
    (ingest_slice (fun k => String.mk (List.replicate k 'u')) 1 "t" "s" "d" "r"
      (some [("a", "b")])).2 = (fun k => String.mk (List.replicate k 'u')) 1 ∧
    (ingest_slice (fun k => String.mk (List.replicate k 'u')) 1 "t" "s" "d" "r"
      (some [("a", "b")])).1.id =
      (ingest_slice (fun k => String.mk (List.replicate k 'u')) 1 "t2" "s2" "d2"
        "r2" none).1.id ∧
    (ingest_slice (fun k => String.mk (List.replicate k 'u')) 0 "t" "s" "d" "r"
      (some [("a", "b")])).1.id ≠
      (ingest_slice (fun k => String.mk (List.replicate k 'u')) 1 "t2" "s2" "d2"
        "r2" none).1.id ∧
    (ingest_slice (fun k => String.mk (List.replicate k 'u')) 1 "t" "s" "d" "r"
      none).1.metadata = [] :=
  ingest_ids_are_service_generated (fun k => String.mk (List.replicate k 'u'))
    (fun x y h => List.replicate_left_injective 'u' (congrArg String.data h))
    0 1 (by decide) "t" "t2" "s" "s2" "d" "d2" "r" "r2"
    (some [("a", "b")]) none

lemma isEmpty_false_of_ne_nil {l : List Hit} (h : l ≠ []) :
    l.isEmpty = false := by
  rw [← Bool.not_eq_true, List.isEmpty_iff]
  exact h

lemma run_success_path (env : PipelineEnv) (symptoms domain : String)
    (top_k : ℕ) (t1 t2 : String)
    (hne : env.search symptoms domain top_k ≠ [])
    (h1 : env.complete 0 (analysisPrompt symptoms
      (contextOf (env.search symptoms domain top_k))) 300 = .ok t1)
    (h2 : env.complete 1 (actionPrompt symptoms t1.trim
      (contextOf (env.search symptoms domain top_k))) 800 = .ok t2) :
    analyze_and_remediate env symptoms domain top_k =
      { completionCalls :=
          [(analysisPrompt symptoms
              (contextOf (env.search symptoms domain top_k)), 300),
           (actionPrompt symptoms t1.trim
              (contextOf (env.search symptoms domain top_k)), 800)],
        result := .ok (.obj
          [("runbook", .s t2.trim),
           ("pattern", .s t1.trim),
           ("matches", .arr (matchesOf (env.search symptoms domain top_k))),
           ("timeline", .arr
             [retrievalRecord (env.search symptoms domain top_k).length
               ((env.search symptoms domain top_k).map (fun h => round2 h.score))
               (round2 env.tRetrieval),
              analysisRecord (round2 env.tAnalysis),
              actionRecord t2.trim (round2 env.tAction)]),
           ("total_time_s", .q (round2 (round2 env.tRetrieval +
              round2 env.tAnalysis + round2 env.tAction))),
           ("domain", .s domain)]) } := by
  simp only [analyze_and_remediate, isEmpty_false_of_ne_nil hne,
    Bool.false_eq_true, if_false, h1, h2, List.cons_append, List.nil_append]

lemma run_analysis_failure_path (env : PipelineEnv) (symptoms domain : String)
    (top_k : ℕ) (e : String)
    (hne : env.search symptoms domain top_k ≠ [])
    (h1 : env.complete 0 (analysisPrompt symptoms
      (contextOf (env.search symptoms domain top_k))) 300 = .error e) :
    analyze_and_remediate env symptoms domain top_k =
      { completionCalls :=
          [(analysisPrompt symptoms
              (contextOf (env.search symptoms domain top_k)), 300)],
        result := .error e } := by
  simp only [analyze_and_remediate, isEmpty_false_of_ne_nil hne,
    Bool.false_eq_true, if_false, h1]

lemma run_action_failure_path (env : PipelineEnv) (symptoms domain : String)
    (top_k : ℕ) (t1 e : String)
    (hne : env.search symptoms domain top_k ≠ [])
    (h1 : env.complete 0 (analysisPrompt symptoms
      (contextOf (env.search symptoms domain top_k))) 300 = .ok t1)
    (h2 : env.complete 1 (actionPrompt symptoms t1.trim
      (contextOf (env.search symptoms domain top_k))) 800 = .error e) :
    analyze_and_remediate env symptoms domain top_k =
      { completionCalls :=
          [(analysisPrompt symptoms
              (contextOf (env.search symptoms domain top_k)), 300),
           (actionPrompt symptoms t1.trim
              (contextOf (env.search symptoms domain top_k)), 800)],
        result := .error e } := by
  simp only [analyze_and_remediate, isEmpty_false_of_ne_nil hne,
    Bool.false_eq_true, if_false, h1, h2]

lemma round2_sum_of_rounded (a b c : ℚ) :
    round2 (round2 a + round2 b + round2 c) =
      round2 a + round2 b + round2 c := by
  rw [round2, round2, round2, round2]
  have h : (100 : ℚ) * (((round (100 * a) : ℤ) : ℚ) / 100 +
      ((round (100 * b) : ℤ) : ℚ) / 100 +
      ((round (100 * c) : ℤ) : ℚ) / 100) =
      ((round (100 * a) + round (100 * b) + round (100 * c) : ℤ) : ℚ) := by
    push_cast
    ring
  rw [h, round_intCast]
  push_cast
  ring

/-- C9: when all three stages complete, the total_time_s of the response
equals the sum of the three recorded stage durations of the timeline. -/
theorem total_time_is_sum_of_stage_durations (env : PipelineEnv)
    (symptoms domain : String) (top_k : ℕ) (t1 t2 : String)
    (hne : env.search symptoms domain top_k ≠ [])
    (h1 : env.complete 0 (analysisPrompt symptoms
      (contextOf (env.search symptoms domain top_k))) 300 = .ok t1)
    (h2 : env.complete 1 (actionPrompt symptoms t1.trim
      (contextOf (env.search symptoms domain top_k))) 800 = .ok t2) :
    ∃ v, (analyze_and_remediate env symptoms domain top_k).result = .ok v ∧
      objLookup v "timeline" = some (.arr
        [retrievalRecord (env.search symptoms domain top_k).length
          ((env.search symptoms domain top_k).map (fun h => round2 h.score))
          (round2 env.tRetrieval),
         analysisRecord (round2 env.tAnalysis),
         actionRecord t2.trim (round2 env.tAction)]) ∧
      objLookup v "total_time_s" = some (.q (round2 env.tRetrieval +
        round2 env.tAnalysis + round2 env.tAction)) := by
  rw [run_success_path env symptoms domain top_k t1 t2 hne h1 h2]
  refine ⟨_, rfl, ?_, ?_⟩
  · simp [objLookup]
  · simp [objLookup, round2_sum_of_rounded]

/-- Witness for C9 at a concrete environment with one hit and both
completions succeeding. -/
theorem total_time_is_sum_of_stage_durations_witness :
    ∃ v, (analyze_and_remediate
        ⟨fun _ _ _ => [⟨"i", 0, "s", "r", "d", []⟩],
         fun idx _ _ => if idx = 0 then .ok "p" else .ok "r", 0, 0, 0⟩
        "sym" "dom" 3).result = .ok v ∧
      objLookup v "timeline" = some (.arr
        [retrievalRecord 1 [round2 (0 : ℚ)] (round2 (0 : ℚ)),
         analysisRecord (round2 (0 : ℚ)),
         actionRecord ("r".trim) (round2 (0 : ℚ))]) ∧
      objLookup v "total_time_s" = some (.q (round2 (0 : ℚ) +
        round2 (0 : ℚ) + round2 (0 : ℚ))) :=
  total_time_is_sum_of_stage_durations
    ⟨fun _ _ _ => [⟨"i", 0, "s", "r", "d", []⟩],
     fun idx _ _ => if idx = 0 then .ok "p" else .ok "r", 0, 0, 0⟩
    "sym" "dom" 3 "p" "r" (List.cons_ne_nil _ _) rfl rfl

/-- C6 counterexample: a completion failure during analysis and one
during action surface to the caller as the same untagged error — the
propagated error carries no CompletionError type and no stage tag, so it
does not identify the failing stage. -/
theorem stage_untagged_error_counterexample :
    (analyze_and_remediate
        ⟨fun _ _ _ => [⟨"i", 0, "s", "r", "d", []⟩],
         fun _ _ _ => .error "boom", 0, 0, 0⟩ "s" "d" 3).result =
      .error "boom" ∧
    (analyze_and_remediate
        ⟨fun _ _ _ => [⟨"i", 0, "s", "r", "d", []⟩],
         fun idx _ _ => if idx = 0 then .ok "fine" else .error "boom",
         0, 0, 0⟩ "s" "d" 3).result = .error "boom" ∧
    (analyze_and_remediate
        ⟨fun _ _ _ => [⟨"i", 0, "s", "r", "d", []⟩],
         fun _ _ _ => .error "boom", 0, 0, 0⟩ "s" "d" 3).completionCalls.length
      = 1 ∧
    (analyze_and_remediate
        ⟨fun _ _ _ => [⟨"i", 0, "s", "r", "d", []⟩],
         fun idx _ _ => if idx = 0 then .ok "fine" else .error "boom",
         0, 0, 0⟩ "s" "d" 3).completionCalls.length = 2 ∧
    (analyze_and_remediate
        ⟨fun _ _ _ => [⟨"i", 0, "s", "r", "d", []⟩],
         fun _ _ _ => .error "boom", 0, 0, 0⟩ "s" "d" 3).result =
      (analyze_and_remediate
        ⟨fun _ _ _ => [⟨"i", 0, "s", "r", "d", []⟩],
         fun idx _ _ => if idx = 0 then .ok "fine" else .error "boom",
         0, 0, 0⟩ "s" "d" 3).result := by
  rw [run_analysis_failure_path
    ⟨fun _ _ _ => [⟨"i", 0, "s", "r", "d", []⟩],
     fun _ _ _ => .error "boom", 0, 0, 0⟩ "s" "d" 3 "boom"
    (List.cons_ne_nil _ _) rfl,
    run_action_failure_path
    ⟨fun _ _ _ => [⟨"i", 0, "s", "r", "d", []⟩],
     fun idx _ _ => if idx = 0 then .ok "fine" else .error "boom",
     0, 0, 0⟩ "s" "d" 3 "fine" "boom" (List.cons_ne_nil _ _) rfl rfl]
  exact ⟨rfl, rfl, rfl, rfl, rfl⟩

/-- C6 amended: a completion failure during the analysis stage aborts
the run with the adapter error propagated unchanged (no stage tag), the
action stage is never invoked (exactly one completion call was made),
and the caller sees only an HTTP 500 with the stringified error — no
half-built response. -/
theorem analysis_failure_aborts_run (env : PipelineEnv)
    (symptoms domain : String) (top_k : ℕ) (e : String)
    (hne : env.search symptoms domain top_k ≠ [])
    (h1 : env.complete 0 (analysisPrompt symptoms
      (contextOf (env.search symptoms domain top_k))) 300 = .error e) :
    (analyze_and_remediate env symptoms domain top_k).result = .error e ∧
    (analyze_and_remediate env symptoms domain top_k).completionCalls =
      [(analysisPrompt symptoms
        (contextOf (env.search symptoms domain top_k)), 300)] ∧
    apiAnalyze (analyze_and_remediate env symptoms domain top_k) =
      .error (500, e) := by
  rw [run_analysis_failure_path env symptoms domain top_k e hne h1]
  exact ⟨rfl, rfl, rfl⟩

/-- Witness for C6 amended at a concrete environment whose adapter fails
on the first call. -/
theorem analysis_failure_aborts_run_witness :
    (analyze_and_remediate
        ⟨fun _ _ _ => [⟨"i", 0, "s", "r", "d", []⟩],
         fun _ _ _ => .error "rate limited", 0, 0, 0⟩
        "sym" "dom" 3).result = .error "rate limited" ∧
    (analyze_and_remediate
        ⟨fun _ _ _ => [⟨"i", 0, "s", "r", "d", []⟩],
         fun _ _ _ => .error "rate limited", 0, 0, 0⟩
        "sym" "dom" 3).completionCalls =
      [(analysisPrompt "sym"
          (contextOf [⟨"i", 0, "s", "r", "d", []⟩]), 300)] ∧
    apiAnalyze (analyze_and_remediate
        ⟨fun _ _ _ => [⟨"i", 0, "s", "r", "d", []⟩],
         fun _ _ _ => .error "rate limited", 0, 0, 0⟩
        "sym" "dom" 3) = .error (500, "rate limited") :=
  analysis_failure_aborts_run
    ⟨fun _ _ _ => [⟨"i", 0, "s", "r", "d", []⟩],
     fun _ _ _ => .error "rate limited", 0, 0, 0⟩
    "sym" "dom" 3 "rate limited" (List.cons_ne_nil _ _) rfl

/-- C4 counterexample: the no-match response object lacks the
total_time_s and domain fields, and its timeline entries carry the key
agent, not stage. -/
theorem response_field_set_counterexample :
    resultKeys (analyze_and_remediate
      ⟨fun _ _ _ => [], fun _ _ _ => .ok "", 0, 0, 0⟩ "s" "d" 3) =
      ["runbook", "matches", "timeline", "pattern"] ∧
    "total_time_s" ∉ resultKeys (analyze_and_remediate
      ⟨fun _ _ _ => [], fun _ _ _ => .ok "", 0, 0, 0⟩ "s" "d" 3) ∧
    "domain" ∉ resultKeys (analyze_and_remediate
      ⟨fun _ _ _ => [], fun _ _ _ => .ok "", 0, 0, 0⟩ "s" "d" 3) ∧
    timelineKeys (analyze_and_remediate
      ⟨fun _ _ _ => [], fun _ _ _ => .ok "", 0, 0, 0⟩ "s" "d" 3) =
      [["agent", "duration_s", "detail"]] := by
  refine ⟨?_, ?_, ?_, ?_⟩ <;>
    simp [analyze_and_remediate, resultKeys, timelineKeys, objKeys,
      objLookup, retrievalRecord]

/-- C4 amended: a run that completes all three stages returns exactly
the keys runbook, pattern, matches, timeline, total_time_s, domain, with
timeline entries keyed agent, duration_s, detail and match entries keyed
rank, score, incident_id, state_summary, resolution, domain, severity;
the no-match short-circuit returns only runbook, matches, timeline,
pattern. -/
theorem response_field_sets (env : PipelineEnv) (symptoms domain : String)
    (top_k : ℕ) :
    (env.search symptoms domain top_k = [] →
      resultKeys (analyze_and_remediate env symptoms domain top_k) =
        ["runbook", "matches", "timeline", "pattern"] ∧
      timelineKeys (analyze_and_remediate env symptoms domain top_k) =
        [["agent", "duration_s", "detail"]]) ∧
    (∀ t1 t2, env.search symptoms domain top_k ≠ [] →
      env.complete 0 (analysisPrompt symptoms
        (contextOf (env.search symptoms domain top_k))) 300 = .ok t1 →
      env.complete 1 (actionPrompt symptoms t1.trim
        (contextOf (env.search symptoms domain top_k))) 800 = .ok t2 →
      resultKeys (analyze_and_remediate env symptoms domain top_k) =
        ["runbook", "pattern", "matches", "timeline", "total_time_s",
          "domain"] ∧
      timelineKeys (analyze_and_remediate env symptoms domain top_k) =
        [["agent", "duration_s", "detail"], ["agent", "duration_s", "detail"],
         ["agent", "duration_s", "detail"]] ∧
      matchKeys (analyze_and_remediate env symptoms domain top_k) =
        List.replicate (env.search symptoms domain top_k).length
          ["rank", "score", "incident_id", "state_summary", "resolution",
            "domain", "severity"]) := by
  constructor
  · intro h
    constructor <;>
      simp [analyze_and_remediate, resultKeys, timelineKeys, objKeys,
        objLookup, retrievalRecord, h]
  · intro t1 t2 hne h1 h2
    rw [run_success_path env symptoms domain top_k t1 t2 hne h1 h2]
    refine ⟨?_, ?_, ?_⟩
    · simp [resultKeys, objKeys]
    · simp [timelineKeys, objKeys, objLookup, retrievalRecord,
        analysisRecord, actionRecord]
    · simp [matchKeys, objKeys, objLookup, matchesOf, matchEntry,
        List.map_const', List.enum_length]
      simp only [Function.comp_def, objKeys, List.map_cons, List.map_nil]
      rw [List.map_const', List.enum_length]

/-- Witness for C4 amended: both branches at concrete environments. -/
theorem response_field_sets_witness :
    (resultKeys (analyze_and_remediate
        ⟨fun _ _ _ => [], fun _ _ _ => .ok "", 0, 0, 0⟩ "s" "d" 3) =
        ["runbook", "matches", "timeline", "pattern"] ∧
      timelineKeys (analyze_and_remediate
        ⟨fun _ _ _ => [], fun _ _ _ => .ok "", 0, 0, 0⟩ "s" "d" 3) =
        [["agent", "duration_s", "detail"]]) ∧
    (resultKeys (analyze_and_remediate
        ⟨fun _ _ _ => [⟨"i", 0, "s", "r", "d", []⟩],
         fun idx _ _ => if idx = 0 then .ok "p" else .ok "r", 0, 0, 0⟩
        "s" "d" 3) =
        ["runbook", "pattern", "matches", "timeline", "total_time_s",
          "domain"] ∧
      timelineKeys (analyze_and_remediate
        ⟨fun _ _ _ => [⟨"i", 0, "s", "r", "d", []⟩],
         fun idx _ _ => if idx = 0 then .ok "p" else .ok "r", 0, 0, 0⟩
        "s" "d" 3) =
        [["agent", "duration_s", "detail"], ["agent", "duration_s", "detail"],
         ["agent", "duration_s", "detail"]] ∧
      matchKeys (analyze_and_remediate
        ⟨fun _ _ _ => [⟨"i", 0, "s", "r", "d", []⟩],
         fun idx _ _ => if idx = 0 then .ok "p" else .ok "r", 0, 0, 0⟩
        "s" "d" 3) =
        List.replicate 1
          ["rank", "score", "incident_id", "state_summary", "resolution",
            "domain", "severity"]) :=
  ⟨(response_field_sets ⟨fun _ _ _ => [], fun _ _ _ => .ok "", 0, 0, 0⟩
      "s" "d" 3).1 rfl,
   (response_field_sets
      ⟨fun _ _ _ => [⟨"i", 0, "s", "r", "d", []⟩],
       fun idx _ _ => if idx = 0 then .ok "p" else .ok "r", 0, 0, 0⟩
      "s" "d" 3).2 "p" "r" (List.cons_ne_nil _ _) rfl rfl⟩

end SentinelSlice
